import Mathlib

/-!
Verification of the mvfst QUIC client core against its specification.

Part 1 embeds the NewReno congestion controller
(`quic/congestion_control/NewReno.cpp`).  Machine integers (`uint64_t`)
are modelled as `Nat`: the C++ code guards every addition and
subtraction with fatal overflow/underflow checks
(`addAndCheckOverflow`, `subtractAndCheckUnderflow`), so on every
non-fatal execution the arithmetic is exact and agrees with `Nat`
arithmetic; theorems about decrements carry the no-underflow
hypothesis explicitly.

Part 2 embeds the client handshake state machine
(`quic/client/handshake/ClientHandshake.cpp`).
-/

namespace Mvfst

/-- Transport settings fields read by NewReno
(`conn.transportSettings` in `NewReno.cpp`). -/
structure TransportSettings where
  initCwndInMss : Nat
  maxCwndInMss : Nat
  minCwndInMss : Nat
  deriving Repr, DecidableEq

/-- The slice of `QuicConnectionStateBase` that NewReno reads:
the transport settings, the UDP send packet length, and
`conn.lossState.largestSent` (the largest packet number sent so far). -/
structure ConnState where
  transportSettings : TransportSettings
  udpSendPacketLen : Nat
  largestSent : Nat
  deriving Repr, DecidableEq

/-- Modelled from the spec: the hard-coded default UDP payload constant
`kDefaultUDPSendPacketLen` used by the congestion-avoidance step; its
definition lives outside the provided sources (`QuicConstants.h`).  The
spec fixes it as a constant but not its numeric value; no claim depends
on the value. -/
def kDefaultUDPSendPacketLen : Nat := 1252

/-- Modelled from the spec: `boundedCwnd` from
`CongestionControlFunctions.h` (not among the provided sources) clamps
the congestion window to `[min_cwnd_in_mss, max_cwnd_in_mss] ×
udp_payload_size` ("Clamp to `[min,max]` each step"). -/
def boundedCwnd (cwndBytes packetLength maxCwndInMss minCwndInMss : Nat) : Nat :=
  max (minCwndInMss * packetLength) (min (maxCwndInMss * packetLength) cwndBytes)

/-- `kRenoLossReductionFactorShift` from `NewReno.cpp` line 14. -/
def kRenoLossReductionFactorShift : Nat := 1

/-- The mutable state of the NewReno controller: `ssthresh_`,
`cwndBytes_`, `bytesInFlight_`, `endOfRecovery_` from `NewReno.h`. -/
structure NewRenoState where
  ssthresh : Nat
  cwndBytes : Nat
  bytesInFlight : Nat
  endOfRecovery : Nat
  deriving Repr, DecidableEq

/-- An ack event as consumed by `NewReno::onPacketAcked`.  The code
`DCHECK`s that `largestAckedPacket` is present, so it is modelled as a
plain field. -/
structure AckEvent where
  largestAckedPacket : Nat
  ackedBytes : Nat
  deriving Repr, DecidableEq

/-- A loss event as consumed by `NewReno::onPacketLoss`; the code
`DCHECK`s that `largestLostPacketNum` is present. -/
structure LossEvent where
  largestLostPacketNum : Nat
  lostBytes : Nat
  deriving Repr, DecidableEq

/-- `NewReno::NewReno` (constructor, `NewReno.cpp` lines 16-25):
`ssthresh_` starts at `uint32_t` max, `cwndBytes_` at
`initCwndInMss * udpSendPacketLen` clamped by `boundedCwnd`,
and the remaining fields are zero-initialised. -/
def NewReno.init (conn : ConnState) : NewRenoState :=
  { ssthresh := 4294967295
    cwndBytes := boundedCwnd
      (conn.transportSettings.initCwndInMss * conn.udpSendPacketLen)
      conn.udpSendPacketLen
      conn.transportSettings.maxCwndInMss
      conn.transportSettings.minCwndInMss
    bytesInFlight := 0
    endOfRecovery := 0 }

/-- `NewReno::onRemoveBytesFromInflight` (`NewReno.cpp` lines 27-32). -/
def NewReno.onRemoveBytesFromInflight (bytes : Nat) (s : NewRenoState) : NewRenoState :=
  { s with bytesInFlight := s.bytesInFlight - bytes }

/-- `NewReno::onPacketSent` (`NewReno.cpp` lines 34-43). -/
def NewReno.onPacketSent (encodedSize : Nat) (s : NewRenoState) : NewRenoState :=
  { s with bytesInFlight := s.bytesInFlight + encodedSize }

/-- `NewReno::onPacketAcked` (`NewReno.cpp` lines 45-70). -/
def NewReno.onPacketAcked (conn : ConnState) (ack : AckEvent) (s : NewRenoState) :
    NewRenoState :=
  let s := { s with bytesInFlight := s.bytesInFlight - ack.ackedBytes }
  if ack.largestAckedPacket < s.endOfRecovery then
    s
  else
    let grown :=
      if s.cwndBytes < s.ssthresh then
        s.cwndBytes + ack.ackedBytes
      else
        s.cwndBytes + (kDefaultUDPSendPacketLen * ack.ackedBytes) / s.cwndBytes
    { s with cwndBytes := (boundedCwnd grown conn.udpSendPacketLen
        conn.transportSettings.maxCwndInMss conn.transportSettings.minCwndInMss) }

/-- `NewReno::onPacketLoss` (`NewReno.cpp` lines 83-106).  The halving
`cwndBytes_ >> kRenoLossReductionFactorShift` is division by
`2 ^ kRenoLossReductionFactorShift`. -/
def NewReno.onPacketLoss (conn : ConnState) (loss : LossEvent) (s : NewRenoState) :
    NewRenoState :=
  let s := { s with bytesInFlight := s.bytesInFlight - loss.lostBytes }
  if s.endOfRecovery < loss.largestLostPacketNum then
    let halved := s.cwndBytes / 2 ^ kRenoLossReductionFactorShift
    let clamped := boundedCwnd halved conn.udpSendPacketLen
      conn.transportSettings.maxCwndInMss conn.transportSettings.minCwndInMss
    { s with
      endOfRecovery := conn.largestSent
      cwndBytes := clamped
      ssthresh := clamped }
  else
    s

/-- `NewReno::onRTOVerified` (`NewReno.cpp` lines 108-113). -/
def NewReno.onRTOVerified (conn : ConnState) (s : NewRenoState) : NewRenoState :=
  { s with cwndBytes := conn.transportSettings.minCwndInMss * conn.udpSendPacketLen }

/-- `NewReno::getWritableBytes` (`NewReno.cpp` lines 115-121). -/
def NewReno.getWritableBytes (s : NewRenoState) : Nat :=
  if s.bytesInFlight > s.cwndBytes then 0 else s.cwndBytes - s.bytesInFlight

/-- `NewReno::getCongestionWindow` (`NewReno.cpp` lines 123-125). -/
def NewReno.getCongestionWindow (s : NewRenoState) : Nat :=
  s.cwndBytes

/-- `NewReno::inSlowStart` (`NewReno.cpp` lines 127-129). -/
def NewReno.inSlowStart (s : NewRenoState) : Bool :=
  s.cwndBytes < s.ssthresh

/-- One event of the congestion controller.  A loss event carries the
value of `conn.lossState.largestSent` at the moment the handler runs,
since `onPacketLoss` reads it from the connection state. -/
inductive CCEvent where
  | packetSent (encodedSize : Nat)
  | packetAcked (ack : AckEvent)
  | packetLoss (loss : LossEvent) (largestSent : Nat)
  | rtoVerified
  | removeBytesFromInflight (bytes : Nat)
  deriving Repr, DecidableEq

/-- Dispatch one event to the matching NewReno handler.  The transport
settings and the UDP payload size are fixed for the lifetime of the connection; `largestSent` is supplied by the event. -/
def NewReno.step (ts : TransportSettings) (len : Nat) (s : NewRenoState) :
    CCEvent → NewRenoState
  | .packetSent encodedSize => NewReno.onPacketSent encodedSize s
  | .packetAcked ack =>
      NewReno.onPacketAcked ⟨ts, len, 0⟩ ack s
  | .packetLoss loss largestSent =>
      NewReno.onPacketLoss ⟨ts, len, largestSent⟩ loss s
  | .rtoVerified => NewReno.onRTOVerified ⟨ts, len, 0⟩ s
  | .removeBytesFromInflight bytes => NewReno.onRemoveBytesFromInflight bytes s

/-- Run the controller from construction through a trace of events. -/
def NewReno.run (ts : TransportSettings) (len : Nat) (trace : List CCEvent) :
    NewRenoState :=
  trace.foldl (NewReno.step ts len) (NewReno.init ⟨ts, len, 0⟩)

/-- The congestion window stays in
`[minCwndInMss * len, maxCwndInMss * len]`. -/
def cwndInBounds (ts : TransportSettings) (len : Nat) (s : NewRenoState) : Prop :=
  ts.minCwndInMss * len ≤ s.cwndBytes ∧ s.cwndBytes ≤ ts.maxCwndInMss * len

/- ### Sample values used by witness theorems -/

/-- Sample transport settings: initCwndInMss 10, maxCwndInMss 20,
minCwndInMss 2. -/
def tsSample : TransportSettings := ⟨10, 20, 2⟩

/-- Sample connection slice with UDP payload 100 and largestSent 42. -/
def connSample : ConnState := ⟨tsSample, 100, 42⟩

/-- Sample controller state. -/
def stSample : NewRenoState :=
  { ssthresh := 1000, cwndBytes := 900, bytesInFlight := 50, endOfRecovery := 5 }


/-! ## Part 2: the client handshake state machine

Embedding of `quic/client/handshake/ClientHandshake.cpp`.  AEAD and
header-protection objects are opaque to this file (they are produced by
the external fizz record layer), so they are modelled as tagged values;
only their presence in a slot matters to the claims.  The fizz record
layer itself is external: a call to `processSocketData` is modelled by
the trace of its observable responses, namely which encryption level it
reads, how many bytes it consumes, and which of the callback methods of `ClientHandshake` it invokes. -/

/-- QUIC encryption levels (`EncryptionLevel` in the mvfst sources). -/
inductive EncryptionLevel where
  | initial
  | handshake
  | earlyData
  | appData
  deriving Repr, DecidableEq

/-- `ClientHandshake::Phase`. -/
inductive Phase where
  | initial
  | handshake
  | oneRttKeysDerived
  | established
  deriving Repr, DecidableEq

/-- Numeric rank of a phase, for stating monotonicity. -/
def Phase.idx : Phase → Nat
  | .initial => 0
  | .handshake => 1
  | .oneRttKeysDerived => 2
  | .established => 3

/-- `ClientHandshake::CipherKind`. -/
inductive CipherKind where
  | handshakeWrite
  | handshakeRead
  | oneRttWrite
  | oneRttRead
  | zeroRttWrite
  deriving Repr, DecidableEq

/-- Opaque AEAD handle (the fizz-derived cipher object). -/
structure Aead where
  keyId : Nat
  deriving Repr, DecidableEq

/-- Opaque packet-number (header protection) cipher handle. -/
structure PacketNumberCipher where
  keyId : Nat
  deriving Repr, DecidableEq

/-- Errors stored by `ClientHandshake::raiseError`.  The claims only
distinguish the `EARLY_DATA_REJECTED` local error raised by
`computeOneRttCipher`; any other exception carried by the wrapper is
`recordLayerFailure`. -/
inductive HandshakeError where
  | earlyDataRejected
  | recordLayerFailure (code : Nat)
  deriving Repr, DecidableEq

/-- A byte buffer (`folly::IOBuf` contents). -/
abbrev Buf := List Nat

/-- The crypto streams of `QuicCryptoState` that the client writes.
Modelled from the spec: `getCryptoStream` lives in
`QuicStreamFunctions` outside the provided sources; the spec says
CRYPTO bytes emitted at level L are appended to "the crypto stream for
L", and that AppData bytes are dropped before reaching any stream. -/
structure QuicCryptoState where
  initialStream : Buf
  handshakeStream : Buf
  earlyDataStream : Buf
  deriving Repr, DecidableEq

/-- Modelled from the spec: `getCryptoStream` followed by
`writeDataToQuicStream` (both outside the provided sources) appends the
bytes to the crypto stream of the given encryption level.  The client
guards the AppData level before this call (`writeDataToStream` returns
early), so the AppData branch leaves the streams untouched. -/
def writeDataToCryptoStream (cs : QuicCryptoState) (lvl : EncryptionLevel) (data : Buf) :
    QuicCryptoState :=
  match lvl with
  | .initial => { cs with initialStream := cs.initialStream ++ data }
  | .handshake => { cs with handshakeStream := cs.handshakeStream ++ data }
  | .earlyData => { cs with earlyDataStream := cs.earlyDataStream ++ data }
  | .appData => cs

/-- The mutable state of `ClientHandshake`: the phase, the three
per-level read buffers, the `waitForData_` flag, the sticky error, the
0-RTT bookkeeping, the ten cipher slots, and the crypto streams of the
referenced `QuicCryptoState`. -/
structure ClientHandshakeState where
  phase : Phase
  initialReadBuf : Buf
  handshakeReadBuf : Buf
  appDataReadBuf : Buf
  waitForData : Bool
  error : Option HandshakeError
  zeroRttRejected : Option Bool
  earlyDataAttempted : Bool
  oneRttWriteCipher : Option Aead
  oneRttReadCipher : Option Aead
  zeroRttWriteCipher : Option Aead
  handshakeReadCipher : Option Aead
  handshakeWriteCipher : Option Aead
  oneRttReadHeaderCipher : Option PacketNumberCipher
  oneRttWriteHeaderCipher : Option PacketNumberCipher
  handshakeReadHeaderCipher : Option PacketNumberCipher
  handshakeWriteHeaderCipher : Option PacketNumberCipher
  zeroRttWriteHeaderCipher : Option PacketNumberCipher
  cryptoState : QuicCryptoState
  deriving Repr, DecidableEq

namespace ClientHandshake

/-- The state after the `ClientHandshake` constructor: phase `Initial`,
empty buffers, no error, no ciphers, no 0-RTT verdict. -/
def initState : ClientHandshakeState :=
  { phase := Phase.initial
    initialReadBuf := []
    handshakeReadBuf := []
    appDataReadBuf := []
    waitForData := false
    error := none
    zeroRttRejected := none
    earlyDataAttempted := false
    oneRttWriteCipher := none
    oneRttReadCipher := none
    zeroRttWriteCipher := none
    handshakeReadCipher := none
    handshakeWriteCipher := none
    oneRttReadHeaderCipher := none
    oneRttWriteHeaderCipher := none
    handshakeReadHeaderCipher := none
    handshakeWriteHeaderCipher := none
    zeroRttWriteHeaderCipher := none
    cryptoState := ⟨[], [], []⟩ }

/-- `ClientHandshake::computeCiphers` (`ClientHandshake.cpp` lines
184-212): install the freshly derived AEAD and header cipher into the
slot selected by `kind`. -/
def computeCiphers (kind : CipherKind) (aead : Aead) (pn : PacketNumberCipher)
    (s : ClientHandshakeState) : ClientHandshakeState :=
  match kind with
  | .handshakeWrite =>
      { s with handshakeWriteCipher := some aead, handshakeWriteHeaderCipher := some pn }
  | .handshakeRead =>
      { s with handshakeReadCipher := some aead, handshakeReadHeaderCipher := some pn }
  | .oneRttWrite =>
      { s with oneRttWriteCipher := some aead, oneRttWriteHeaderCipher := some pn }
  | .oneRttRead =>
      { s with oneRttReadCipher := some aead, oneRttReadHeaderCipher := some pn }
  | .zeroRttWrite =>
      { s with zeroRttWriteCipher := some aead, zeroRttWriteHeaderCipher := some pn }

/-- `ClientHandshake::raiseError` (lines 214-216). -/
def raiseError (e : HandshakeError) (s : ClientHandshakeState) : ClientHandshakeState :=
  { s with error := some e }

/-- `ClientHandshake::waitForData` (lines 218-220): the record layer
signals that it needs more bytes. -/
def signalWaitForData (s : ClientHandshakeState) : ClientHandshakeState :=
  { s with waitForData := true }

/-- `ClientHandshake::writeDataToStream` (lines 248-257): CRYPTO bytes
at AppData level are dropped; bytes of any other level are appended to
the crypto stream of that level. -/
def writeDataToStream (encryptionLevel : EncryptionLevel) (data : Buf)
    (s : ClientHandshakeState) : ClientHandshakeState :=
  if encryptionLevel = EncryptionLevel.appData then
    s
  else
    { s with cryptoState := writeDataToCryptoStream s.cryptoState encryptionLevel data }

/-- `ClientHandshake::computeZeroRttCipher` (lines 259-263). -/
def computeZeroRttCipher (s : ClientHandshakeState) : ClientHandshakeState :=
  { s with earlyDataAttempted := true }

/-- `ClientHandshake::computeOneRttCipher` (lines 265-285).  The check
`fizz::client::earlyParametersMatch(state_)` consults the external fizz
state, so its verdict is a boolean input. -/
def computeOneRttCipher (earlyParametersMatch earlyDataAccepted : Bool)
    (s : ClientHandshakeState) : ClientHandshakeState :=
  if s.earlyDataAttempted && !earlyDataAccepted then
    if earlyParametersMatch then
      { s with zeroRttRejected := some true, phase := Phase.oneRttKeysDerived }
    else
      { s with error := some HandshakeError.earlyDataRejected }
  else
    { s with phase := Phase.oneRttKeysDerived }

/-- `ClientHandshake::onRecvOneRttProtectedData` (lines 150-154). -/
def onRecvOneRttProtectedData (s : ClientHandshakeState) : ClientHandshakeState :=
  if s.phase ≠ Phase.established then { s with phase := Phase.established } else s

/-- `ClientHandshake::getOneRttWriteCipher` (lines 71-76): re-throw any
stored error, else move the cipher out of its slot. -/
def getOneRttWriteCipher (s : ClientHandshakeState) :
    Except HandshakeError (Option Aead × ClientHandshakeState) :=
  match s.error with
  | some e => .error e
  | none => .ok (s.oneRttWriteCipher, { s with oneRttWriteCipher := none })

/-- `ClientHandshake::getOneRttReadCipher` (lines 78-83). -/
def getOneRttReadCipher (s : ClientHandshakeState) :
    Except HandshakeError (Option Aead × ClientHandshakeState) :=
  match s.error with
  | some e => .error e
  | none => .ok (s.oneRttReadCipher, { s with oneRttReadCipher := none })

/-- `ClientHandshake::getZeroRttWriteCipher` (lines 85-90). -/
def getZeroRttWriteCipher (s : ClientHandshakeState) :
    Except HandshakeError (Option Aead × ClientHandshakeState) :=
  match s.error with
  | some e => .error e
  | none => .ok (s.zeroRttWriteCipher, { s with zeroRttWriteCipher := none })

/-- `ClientHandshake::getHandshakeReadCipher` (lines 92-97). -/
def getHandshakeReadCipher (s : ClientHandshakeState) :
    Except HandshakeError (Option Aead × ClientHandshakeState) :=
  match s.error with
  | some e => .error e
  | none => .ok (s.handshakeReadCipher, { s with handshakeReadCipher := none })

/-- `ClientHandshake::getHandshakeWriteCipher` (lines 99-104). -/
def getHandshakeWriteCipher (s : ClientHandshakeState) :
    Except HandshakeError (Option Aead × ClientHandshakeState) :=
  match s.error with
  | some e => .error e
  | none => .ok (s.handshakeWriteCipher, { s with handshakeWriteCipher := none })

/-- `ClientHandshake::getOneRttReadHeaderCipher` (lines 106-112). -/
def getOneRttReadHeaderCipher (s : ClientHandshakeState) :
    Except HandshakeError (Option PacketNumberCipher × ClientHandshakeState) :=
  match s.error with
  | some e => .error e
  | none => .ok (s.oneRttReadHeaderCipher, { s with oneRttReadHeaderCipher := none })

/-- `ClientHandshake::getOneRttWriteHeaderCipher` (lines 114-120). -/
def getOneRttWriteHeaderCipher (s : ClientHandshakeState) :
    Except HandshakeError (Option PacketNumberCipher × ClientHandshakeState) :=
  match s.error with
  | some e => .error e
  | none => .ok (s.oneRttWriteHeaderCipher, { s with oneRttWriteHeaderCipher := none })

/-- `ClientHandshake::getHandshakeReadHeaderCipher` (lines 122-128). -/
def getHandshakeReadHeaderCipher (s : ClientHandshakeState) :
    Except HandshakeError (Option PacketNumberCipher × ClientHandshakeState) :=
  match s.error with
  | some e => .error e
  | none => .ok (s.handshakeReadHeaderCipher, { s with handshakeReadHeaderCipher := none })

/-- `ClientHandshake::getHandshakeWriteHeaderCipher` (lines 130-136). -/
def getHandshakeWriteHeaderCipher (s : ClientHandshakeState) :
    Except HandshakeError (Option PacketNumberCipher × ClientHandshakeState) :=
  match s.error with
  | some e => .error e
  | none => .ok (s.handshakeWriteHeaderCipher, { s with handshakeWriteHeaderCipher := none })

/-- `ClientHandshake::getZeroRttWriteHeaderCipher` (lines 138-144). -/
def getZeroRttWriteHeaderCipher (s : ClientHandshakeState) :
    Except HandshakeError (Option PacketNumberCipher × ClientHandshakeState) :=
  match s.error with
  | some e => .error e
  | none => .ok (s.zeroRttWriteHeaderCipher, { s with zeroRttWriteHeaderCipher := none })

end ClientHandshake

/-- One observable callback the fizz record layer makes into
`ClientHandshake` while `processSocketData` runs.  These are exactly
the `ClientHandshake` methods fizz invokes from the processing loop. -/
inductive HandshakeCallback where
  | computeCiphers (kind : CipherKind) (aead : Aead) (pn : PacketNumberCipher)
  | raiseError (e : HandshakeError)
  | signalWaitForData
  | writeDataToStream (lvl : EncryptionLevel) (data : Buf)
  | computeZeroRttCipher
  | computeOneRttCipher (earlyParametersMatch earlyDataAccepted : Bool)
  deriving Repr, DecidableEq

/-- Whether a callback is the `computeOneRttCipher` callback. -/
def HandshakeCallback.isComputeOneRtt : HandshakeCallback → Bool
  | .computeOneRttCipher _ _ => true
  | _ => false

/-- Semantics of one record-layer callback, from the corresponding
`ClientHandshake` method. -/
def applyCallback (s : ClientHandshakeState) : HandshakeCallback → ClientHandshakeState
  | .computeCiphers kind aead pn => ClientHandshake.computeCiphers kind aead pn s
  | .raiseError e => ClientHandshake.raiseError e s
  | .signalWaitForData => ClientHandshake.signalWaitForData s
  | .writeDataToStream lvl data => ClientHandshake.writeDataToStream lvl data s
  | .computeZeroRttCipher => ClientHandshake.computeZeroRttCipher s
  | .computeOneRttCipher m a => ClientHandshake.computeOneRttCipher m a s

/-- The observable behaviour of the record layer during one call to
`processSocketData`: which encryption level it reported via
`getReadRecordLayerEncryptionLevel`, how many bytes it consumed from
the read buffer of that level, and the callbacks it made. -/
structure RecordLayerTurn where
  level : EncryptionLevel
  consumed : Nat
  callbacks : List HandshakeCallback
  deriving Repr, DecidableEq

namespace ClientHandshake

/-- Append arriving bytes to the read buffer of their encryption level
(`doHandshake`, lines 38-49); EarlyData and AppData share
`appDataReadBuf_`. -/
def appendReadBuf (lvl : EncryptionLevel) (data : Buf) (s : ClientHandshakeState) :
    ClientHandshakeState :=
  match lvl with
  | .initial => { s with initialReadBuf := s.initialReadBuf ++ data }
  | .handshake => { s with handshakeReadBuf := s.handshakeReadBuf ++ data }
  | .earlyData => { s with appDataReadBuf := s.appDataReadBuf ++ data }
  | .appData => { s with appDataReadBuf := s.appDataReadBuf ++ data }

/-- Consume bytes from the front of the read buffer the record layer is
reading (the buffer selection of `doHandshake`, lines 53-64). -/
def consumeReadBuf (lvl : EncryptionLevel) (n : Nat) (s : ClientHandshakeState) :
    ClientHandshakeState :=
  match lvl with
  | .initial => { s with initialReadBuf := s.initialReadBuf.drop n }
  | .handshake => { s with handshakeReadBuf := s.handshakeReadBuf.drop n }
  | .earlyData => { s with appDataReadBuf := s.appDataReadBuf.drop n }
  | .appData => { s with appDataReadBuf := s.appDataReadBuf.drop n }

/-- One `processSocketData` call: the record layer consumes bytes from
the buffer it is reading and invokes its callbacks. -/
def processSocketData (turn : RecordLayerTurn) (s : ClientHandshakeState) :
    ClientHandshakeState :=
  turn.callbacks.foldl applyCallback (consumeReadBuf turn.level turn.consumed s)

/-- The processing loop of `doHandshake` (lines 52-68): while
`waitForData_` is false, run `processSocketData` for the level the
record layer reports; after each turn, a stored error is re-thrown
(the loop exits with the state mutated so far).  The list is the trace
of record-layer turns. -/
def doHandshakeLoop : List RecordLayerTurn → ClientHandshakeState → ClientHandshakeState
  | [], s => s
  | turn :: rest, s =>
      if s.waitForData then s
      else
        if (processSocketData turn s).error.isSome then processSocketData turn s
        else doHandshakeLoop rest (processSocketData turn s)

/-- `ClientHandshake::doHandshake` (lines 20-69): a null buffer returns
immediately; otherwise the phase is bumped from `Initial` to
`Handshake`, the bytes join the read buffer of their level, and the
record layer is pumped until it asks for more data or raises. -/
def doHandshake (script : List RecordLayerTurn) (data : Option Buf)
    (encryptionLevel : EncryptionLevel) (s : ClientHandshakeState) :
    ClientHandshakeState :=
  match data with
  | none => s
  | some d =>
      let s1 := if s.phase = Phase.initial then { s with phase := Phase.handshake } else s
      let s2 := appendReadBuf encryptionLevel d s1
      doHandshakeLoop script { s2 with waitForData := false }

end ClientHandshake

/-- Sample handshake state with a stored record-layer error. -/
def hsErrSample : ClientHandshakeState :=
  { ClientHandshake.initState with error := some (HandshakeError.recordLayerFailure 3) }

/-- Sample handshake state with a 1-RTT write cipher installed and no
error. -/
def hsOkSample : ClientHandshakeState :=
  { ClientHandshake.initState with oneRttWriteCipher := some ⟨7⟩ }

/- ### Helper lemmas -/

theorem boundedCwnd_mem (c len mx mn : Nat) (h : mn * len ≤ mx * len) :
    mn * len ≤ boundedCwnd c len mx mn ∧ boundedCwnd c len mx mn ≤ mx * len := by
  unfold boundedCwnd
  omega

theorem boundedCwnd_of_le (c len mx mn : Nat) (h : c ≤ mx * len) :
    boundedCwnd c len mx mn = max (mn * len) c := by
  unfold boundedCwnd
  omega

theorem step_preserves_cwndInBounds (ts : TransportSettings) (len : Nat)
    (h : ts.minCwndInMss * len ≤ ts.maxCwndInMss * len)
    (s : NewRenoState) (e : CCEvent) (hs : cwndInBounds ts len s) :
    cwndInBounds ts len (NewReno.step ts len s e) := by
  cases e with
  | packetSent n =>
      simpa [NewReno.step, NewReno.onPacketSent, cwndInBounds] using hs
  | packetAcked ack =>
      simp only [NewReno.step, NewReno.onPacketAcked]
      split
      · simpa [cwndInBounds] using hs
      · exact boundedCwnd_mem _ _ _ _ h
  | packetLoss loss largestSent =>
      simp only [NewReno.step, NewReno.onPacketLoss]
      split
      · exact boundedCwnd_mem _ _ _ _ h
      · simpa [cwndInBounds] using hs
  | rtoVerified =>
      simp only [NewReno.step, NewReno.onRTOVerified]
      exact ⟨le_refl _, h⟩
  | removeBytesFromInflight n =>
      simpa [NewReno.step, NewReno.onRemoveBytesFromInflight, cwndInBounds] using hs

theorem foldl_preserves_cwndInBounds (ts : TransportSettings) (len : Nat)
    (h : ts.minCwndInMss * len ≤ ts.maxCwndInMss * len)
    (trace : List CCEvent) (s : NewRenoState) (hs : cwndInBounds ts len s) :
    cwndInBounds ts len (trace.foldl (NewReno.step ts len) s) := by
  induction trace generalizing s with
  | nil => exact hs
  | cons e rest ih =>
      exact ih _ (step_preserves_cwndInBounds ts len h s e hs)

/- ### Claims about the congestion controller -/

/-- C1: `NewReno::onPacketAcked` first decreases `bytesInFlight_` by the
acked bytes; if the largest acked packet number is below
`endOfRecovery_` it changes nothing else; otherwise in slow start
(`cwndBytes_ < ssthresh_`) it adds the acked bytes to the window, and
in congestion avoidance it adds
`⌊kDefaultUDPSendPacketLen * ackedBytes / cwndBytes_⌋`; in the growing
cases the result is clamped to
`[minCwndInMss, maxCwndInMss] * udpSendPacketLen`. -/
theorem onPacketAcked_spec (conn : ConnState) (ack : AckEvent) (s : NewRenoState)
    (hin : ack.ackedBytes ≤ s.bytesInFlight) :
    (NewReno.onPacketAcked conn ack s).bytesInFlight + ack.ackedBytes = s.bytesInFlight
    ∧ (ack.largestAckedPacket < s.endOfRecovery →
        (NewReno.onPacketAcked conn ack s).cwndBytes = s.cwndBytes
        ∧ (NewReno.onPacketAcked conn ack s).ssthresh = s.ssthresh
        ∧ (NewReno.onPacketAcked conn ack s).endOfRecovery = s.endOfRecovery)
    ∧ (s.endOfRecovery ≤ ack.largestAckedPacket → s.cwndBytes < s.ssthresh →
        (NewReno.onPacketAcked conn ack s).cwndBytes =
          boundedCwnd (s.cwndBytes + ack.ackedBytes) conn.udpSendPacketLen
            conn.transportSettings.maxCwndInMss conn.transportSettings.minCwndInMss)
    ∧ (s.endOfRecovery ≤ ack.largestAckedPacket → s.ssthresh ≤ s.cwndBytes →
        (NewReno.onPacketAcked conn ack s).cwndBytes =
          boundedCwnd
            (s.cwndBytes + (kDefaultUDPSendPacketLen * ack.ackedBytes) / s.cwndBytes)
            conn.udpSendPacketLen
            conn.transportSettings.maxCwndInMss conn.transportSettings.minCwndInMss)
    ∧ (s.endOfRecovery ≤ ack.largestAckedPacket →
        conn.transportSettings.minCwndInMss * conn.udpSendPacketLen ≤
          conn.transportSettings.maxCwndInMss * conn.udpSendPacketLen →
        cwndInBounds conn.transportSettings conn.udpSendPacketLen
          (NewReno.onPacketAcked conn ack s)) := by
  by_cases h1 : ack.largestAckedPacket < s.endOfRecovery
  · refine ⟨?_, fun _ => ⟨?_, ?_, ?_⟩, fun hge _ => absurd h1 (by omega),
      fun hge _ => absurd h1 (by omega), fun hge _ => absurd h1 (by omega)⟩ <;>
      simp [NewReno.onPacketAcked, h1] <;> omega
  · by_cases h2 : s.cwndBytes < s.ssthresh
    · refine ⟨?_, fun hlt => absurd hlt h1, fun _ _ => ?_, fun _ hss => absurd h2 (by omega),
        fun _ hbound => ?_⟩
      · simp [NewReno.onPacketAcked, h1, h2]
        omega
      · simp [NewReno.onPacketAcked, h1, h2]
      · have := boundedCwnd_mem (s.cwndBytes + ack.ackedBytes) conn.udpSendPacketLen
          conn.transportSettings.maxCwndInMss conn.transportSettings.minCwndInMss hbound
        simpa [NewReno.onPacketAcked, h1, h2, cwndInBounds] using this
    · refine ⟨?_, fun hlt => absurd hlt h1, fun _ hss => absurd hss (by omega),
        fun _ _ => ?_, fun _ hbound => ?_⟩
      · simp [NewReno.onPacketAcked, h1, h2]
        omega
      · simp [NewReno.onPacketAcked, h1, h2]
      · have := boundedCwnd_mem
          (s.cwndBytes + (kDefaultUDPSendPacketLen * ack.ackedBytes) / s.cwndBytes)
          conn.udpSendPacketLen conn.transportSettings.maxCwndInMss
          conn.transportSettings.minCwndInMss hbound
        simpa [NewReno.onPacketAcked, h1, h2, cwndInBounds] using this

/-- Witness for C1: the acked-bytes decrement and slow-start growth on
concrete inputs (ack of 30 bytes, largest acked 7, state `stSample`). -/
theorem onPacketAcked_spec_witness :
    (NewReno.onPacketAcked connSample ⟨7, 30⟩ stSample).bytesInFlight + 30 = 50
    ∧ (NewReno.onPacketAcked connSample ⟨7, 30⟩ stSample).cwndBytes =
        boundedCwnd 930 100 20 2 := by
  have h := onPacketAcked_spec connSample ⟨7, 30⟩ stSample (by decide)
  exact ⟨h.1, h.2.2.1 (by decide) (by decide)⟩

/-- C2: `NewReno::onPacketLoss` decreases `bytesInFlight_` by the lost
bytes; exactly when `endOfRecovery_ < largestLostPacketNum` it starts a
new recovery epoch, setting `endOfRecovery_` to the largest packet sent
so far, halving the window (clamped below by
`minCwndInMss * udpSendPacketLen`) and copying it into `ssthresh_`;
otherwise window, ssthresh and recovery marker are untouched. -/
theorem onPacketLoss_spec (conn : ConnState) (loss : LossEvent) (s : NewRenoState)
    (hin : loss.lostBytes ≤ s.bytesInFlight)
    (hmax : s.cwndBytes ≤ conn.transportSettings.maxCwndInMss * conn.udpSendPacketLen) :
    (NewReno.onPacketLoss conn loss s).bytesInFlight + loss.lostBytes = s.bytesInFlight
    ∧ (s.endOfRecovery < loss.largestLostPacketNum →
        (NewReno.onPacketLoss conn loss s).endOfRecovery = conn.largestSent
        ∧ (NewReno.onPacketLoss conn loss s).cwndBytes =
            max (conn.transportSettings.minCwndInMss * conn.udpSendPacketLen)
              (s.cwndBytes / 2)
        ∧ (NewReno.onPacketLoss conn loss s).ssthresh =
            (NewReno.onPacketLoss conn loss s).cwndBytes
        ∧ conn.transportSettings.minCwndInMss * conn.udpSendPacketLen ≤
            (NewReno.onPacketLoss conn loss s).cwndBytes)
    ∧ (loss.largestLostPacketNum ≤ s.endOfRecovery →
        (NewReno.onPacketLoss conn loss s).cwndBytes = s.cwndBytes
        ∧ (NewReno.onPacketLoss conn loss s).ssthresh = s.ssthresh
        ∧ (NewReno.onPacketLoss conn loss s).endOfRecovery = s.endOfRecovery) := by
  have hdiv : s.cwndBytes / 2 ≤
      conn.transportSettings.maxCwndInMss * conn.udpSendPacketLen :=
    le_trans (Nat.div_le_self _ _) hmax
  have hclamp := boundedCwnd_of_le (s.cwndBytes / 2)
    conn.udpSendPacketLen conn.transportSettings.maxCwndInMss
    conn.transportSettings.minCwndInMss hdiv
  by_cases h1 : s.endOfRecovery < loss.largestLostPacketNum
  · refine ⟨?_, fun _ => ⟨?_, ?_, ?_, ?_⟩, fun hge => absurd h1 (by omega)⟩ <;>
      simp [NewReno.onPacketLoss, h1, hclamp, kRenoLossReductionFactorShift] <;>
      omega
  · refine ⟨?_, fun hlt => absurd hlt h1, fun _ => ⟨?_, ?_, ?_⟩⟩ <;>
      simp [NewReno.onPacketLoss, h1] <;> omega

/-- Witness for C2: a loss of 20 bytes with largest lost 9 on
`stSample` enters a new recovery epoch. -/
theorem onPacketLoss_spec_witness :
    (NewReno.onPacketLoss connSample ⟨9, 20⟩ stSample).bytesInFlight + 20 = 50
    ∧ (NewReno.onPacketLoss connSample ⟨9, 20⟩ stSample).endOfRecovery = 42
    ∧ (NewReno.onPacketLoss connSample ⟨9, 20⟩ stSample).cwndBytes = max 200 450 := by
  have h := onPacketLoss_spec connSample ⟨9, 20⟩ stSample (by decide) (by decide)
  exact ⟨h.1, (h.2.1 (by decide)).1, (h.2.1 (by decide)).2.1⟩

/-- C6: `NewReno::getWritableBytes` returns
`max (0, cwndBytes_ - bytesInFlight_)` (as integers), and in particular
returns exactly 0 whenever `bytesInFlight_ > cwndBytes_`. -/
theorem getWritableBytes_spec (s : NewRenoState) :
    NewReno.getWritableBytes s = ((s.cwndBytes : Int) - (s.bytesInFlight : Int)).toNat
    ∧ (s.bytesInFlight > s.cwndBytes → NewReno.getWritableBytes s = 0) := by
  unfold NewReno.getWritableBytes
  constructor
  · split <;> omega
  · intro h
    split <;> omega

/-- Witness for C6: with 7 bytes in flight against a 5-byte window the
writable budget is 0, not a wrapped-around value. -/
theorem getWritableBytes_spec_witness :
    NewReno.getWritableBytes ⟨0, 5, 7, 0⟩ = ((5 : Int) - (7 : Int)).toNat
    ∧ NewReno.getWritableBytes ⟨0, 5, 7, 0⟩ = 0 :=
  ⟨(getWritableBytes_spec ⟨0, 5, 7, 0⟩).1,
   (getWritableBytes_spec ⟨0, 5, 7, 0⟩).2 (by decide)⟩

/-- C7: along every trace of events, starting from the constructor
state, `cwndBytes_` stays within
`[minCwndInMss, maxCwndInMss] * udpSendPacketLen`, provided
`minCwndInMss ≤ maxCwndInMss`. -/
theorem cwnd_always_bounded (ts : TransportSettings) (len : Nat)
    (h : ts.minCwndInMss ≤ ts.maxCwndInMss) (trace : List CCEvent) :
    cwndInBounds ts len (NewReno.run ts len trace) := by
  have hlen : ts.minCwndInMss * len ≤ ts.maxCwndInMss * len :=
    Nat.mul_le_mul_right len h
  exact foldl_preserves_cwndInBounds ts len hlen trace _
    (boundedCwnd_mem _ _ _ _ hlen)

/-- Witness for C7: a concrete trace of a send, an ack, a loss entering
recovery, an RTO collapse and an inflight removal keeps the window in
`[200, 2000]`. -/
theorem cwnd_always_bounded_witness :
    cwndInBounds tsSample 100
      (NewReno.run tsSample 100
        [CCEvent.packetSent 500, CCEvent.packetAcked ⟨1, 300⟩,
         CCEvent.packetLoss ⟨2, 200⟩ 3, CCEvent.rtoVerified,
         CCEvent.removeBytesFromInflight 100]) :=
  cwnd_always_bounded tsSample 100 (by decide) _

/- ### Helper lemmas about the handshake phase -/

theorem applyCallback_phase (s : ClientHandshakeState) (cb : HandshakeCallback) :
    (applyCallback s cb).phase = s.phase
    ∨ (cb.isComputeOneRtt = true ∧ (applyCallback s cb).phase = Phase.oneRttKeysDerived) := by
  cases cb with
  | computeCiphers k aead pn => cases k <;> exact Or.inl rfl
  | raiseError e => exact Or.inl rfl
  | signalWaitForData => exact Or.inl rfl
  | writeDataToStream lvl d =>
      refine Or.inl ?_
      simp only [applyCallback, ClientHandshake.writeDataToStream]
      split <;> rfl
  | computeZeroRttCipher => exact Or.inl rfl
  | computeOneRttCipher m a =>
      simp only [applyCallback, ClientHandshake.computeOneRttCipher]
      split
      · split
        · exact Or.inr ⟨rfl, rfl⟩
        · exact Or.inl rfl
      · exact Or.inr ⟨rfl, rfl⟩

theorem phase_idx_le_of_ne_established (p : Phase) (h : p ≠ Phase.established) :
    p.idx ≤ 2 := by
  cases p <;> simp [Phase.idx] at h ⊢

theorem applyCallback_phase_mono (s : ClientHandshakeState) (cb : HandshakeCallback)
    (h : s.phase ≠ Phase.established) :
    s.phase.idx ≤ (applyCallback s cb).phase.idx
    ∧ (applyCallback s cb).phase ≠ Phase.established := by
  rcases applyCallback_phase s cb with heq | ⟨_, heq⟩
  · rw [heq]
    exact ⟨le_refl _, h⟩
  · rw [heq]
    refine ⟨?_, by simp⟩
    exact phase_idx_le_of_ne_established s.phase h

theorem foldl_applyCallback_phase_mono (cbs : List HandshakeCallback)
    (s : ClientHandshakeState) (h : s.phase ≠ Phase.established) :
    s.phase.idx ≤ (cbs.foldl applyCallback s).phase.idx
    ∧ (cbs.foldl applyCallback s).phase ≠ Phase.established := by
  induction cbs generalizing s with
  | nil => exact ⟨le_refl _, h⟩
  | cons cb rest ih =>
      have h1 := applyCallback_phase_mono s cb h
      have h2 := ih (applyCallback s cb) h1.2
      exact ⟨le_trans h1.1 h2.1, h2.2⟩

theorem foldl_applyCallback_established (cbs : List HandshakeCallback)
    (s : ClientHandshakeState) (h : s.phase = Phase.established)
    (hno : ∀ cb ∈ cbs, cb.isComputeOneRtt = false) :
    (cbs.foldl applyCallback s).phase = Phase.established := by
  induction cbs generalizing s with
  | nil => exact h
  | cons cb rest ih =>
      rcases applyCallback_phase s cb with heq | ⟨hcb, _⟩
      · exact ih (applyCallback s cb) (heq.trans h) fun c hc => hno c (List.mem_cons_of_mem _ hc)
      · have := hno cb (List.mem_cons_self _ _)
        rw [this] at hcb
        exact absurd hcb (by simp)

theorem consumeReadBuf_phase (lvl : EncryptionLevel) (n : Nat) (s : ClientHandshakeState) :
    (ClientHandshake.consumeReadBuf lvl n s).phase = s.phase := by
  cases lvl <;> rfl

theorem appendReadBuf_phase (lvl : EncryptionLevel) (d : Buf) (s : ClientHandshakeState) :
    (ClientHandshake.appendReadBuf lvl d s).phase = s.phase := by
  cases lvl <;> rfl

theorem processSocketData_phase_mono (turn : RecordLayerTurn) (s : ClientHandshakeState)
    (h : s.phase ≠ Phase.established) :
    s.phase.idx ≤ (ClientHandshake.processSocketData turn s).phase.idx
    ∧ (ClientHandshake.processSocketData turn s).phase ≠ Phase.established := by
  unfold ClientHandshake.processSocketData
  have hc := consumeReadBuf_phase turn.level turn.consumed s
  have := foldl_applyCallback_phase_mono turn.callbacks
    (ClientHandshake.consumeReadBuf turn.level turn.consumed s) (by rw [hc]; exact h)
  rw [hc] at this
  exact this

theorem processSocketData_established (turn : RecordLayerTurn) (s : ClientHandshakeState)
    (h : s.phase = Phase.established)
    (hno : ∀ cb ∈ turn.callbacks, cb.isComputeOneRtt = false) :
    (ClientHandshake.processSocketData turn s).phase = Phase.established := by
  unfold ClientHandshake.processSocketData
  exact foldl_applyCallback_established turn.callbacks _
    ((consumeReadBuf_phase turn.level turn.consumed s).trans h) hno

theorem doHandshakeLoop_phase_mono (script : List RecordLayerTurn)
    (s : ClientHandshakeState) (h : s.phase ≠ Phase.established) :
    s.phase.idx ≤ (ClientHandshake.doHandshakeLoop script s).phase.idx
    ∧ (ClientHandshake.doHandshakeLoop script s).phase ≠ Phase.established := by
  induction script generalizing s with
  | nil => exact ⟨le_refl _, h⟩
  | cons turn rest ih =>
      unfold ClientHandshake.doHandshakeLoop
      split
      · exact ⟨le_refl _, h⟩
      · have h1 := processSocketData_phase_mono turn s h
        split
        · exact h1
        · have h2 := ih (ClientHandshake.processSocketData turn s) h1.2
          exact ⟨le_trans h1.1 h2.1, h2.2⟩

theorem doHandshakeLoop_established (script : List RecordLayerTurn)
    (s : ClientHandshakeState) (h : s.phase = Phase.established)
    (hno : ∀ turn ∈ script, ∀ cb ∈ turn.callbacks, cb.isComputeOneRtt = false) :
    (ClientHandshake.doHandshakeLoop script s).phase = Phase.established := by
  induction script generalizing s with
  | nil => exact h
  | cons turn rest ih =>
      unfold ClientHandshake.doHandshakeLoop
      split
      · exact h
      · have h1 := processSocketData_established turn s h
          (hno turn (List.mem_cons_self _ _))
        split
        · exact h1
        · exact ih (ClientHandshake.processSocketData turn s) h1
            fun t ht => hno t (List.mem_cons_of_mem _ ht)

theorem doHandshake_phase_mono (script : List RecordLayerTurn) (d : Buf)
    (lvl : EncryptionLevel) (s : ClientHandshakeState)
    (hscript : s.phase = Phase.established →
      ∀ turn ∈ script, ∀ cb ∈ turn.callbacks, cb.isComputeOneRtt = false) :
    s.phase.idx ≤ (ClientHandshake.doHandshake script (some d) lvl s).phase.idx := by
  show s.phase.idx ≤ (ClientHandshake.doHandshakeLoop script
    { ClientHandshake.appendReadBuf lvl d
        (if s.phase = Phase.initial then { s with phase := Phase.handshake } else s)
      with waitForData := false }).phase.idx
  by_cases hest : s.phase = Phase.established
  · have hne : ¬ s.phase = Phase.initial := by rw [hest]; decide
    rw [if_neg hne]
    have hu : ({ ClientHandshake.appendReadBuf lvl d s with waitForData := false } :
        ClientHandshakeState).phase = Phase.established := by
      have hap := appendReadBuf_phase lvl d s
      simpa [hap] using hest
    rw [doHandshakeLoop_established script _ hu (hscript hest), hest]
  · by_cases hinit : s.phase = Phase.initial
    · rw [if_pos hinit]
      have hu : ({ ClientHandshake.appendReadBuf lvl d { s with phase := Phase.handshake }
          with waitForData := false } : ClientHandshakeState).phase = Phase.handshake := by
        have hap := appendReadBuf_phase lvl d ({ s with phase := Phase.handshake })
        simpa using hap
      have hloop := doHandshakeLoop_phase_mono script
        { ClientHandshake.appendReadBuf lvl d { s with phase := Phase.handshake }
          with waitForData := false } (by rw [hu]; decide)
      rw [hu] at hloop
      refine le_trans ?_ hloop.1
      rw [hinit]
      decide
    · rw [if_neg hinit]
      have hu : ({ ClientHandshake.appendReadBuf lvl d s with waitForData := false } :
          ClientHandshakeState).phase = s.phase := by
        have hap := appendReadBuf_phase lvl d s
        simpa using hap
      have hloop := doHandshakeLoop_phase_mono script
        { ClientHandshake.appendReadBuf lvl d s with waitForData := false }
        (by rw [hu]; exact hest)
      rw [hu] at hloop
      exact hloop.1

/- ### Claims about the handshake state machine -/

/-- C3 counterexample: the phase is NOT monotone in every order of
invocation.  Run `computeOneRttCipher` (reaching `OneRttKeysDerived`),
then `onRecvOneRttProtectedData` (reaching `Established`), then
`computeOneRttCipher` again: the phase drops from `Established` back to
`OneRttKeysDerived`, because `computeOneRttCipher` assigns the phase
unconditionally. -/
theorem phase_monotone_counterexample :
    ((ClientHandshake.computeOneRttCipher true true
        (ClientHandshake.onRecvOneRttProtectedData
          (ClientHandshake.computeOneRttCipher true true
            ClientHandshake.initState))).phase).idx <
      ((ClientHandshake.onRecvOneRttProtectedData
          (ClientHandshake.computeOneRttCipher true true
            ClientHandshake.initState)).phase).idx := by
  decide

/-- C3 (amended): the handshake phase is monotone non-decreasing under
`doHandshake` and `onRecvOneRttProtectedData` in any order, and under
`computeOneRttCipher` whenever the phase has not already reached
`Established`; for `doHandshake` at `Established`, monotonicity holds
provided the record layer does not invoke `computeOneRttCipher` during
that call (it reports handshake success only once). -/
theorem handshake_phase_monotone (s : ClientHandshakeState)
    (script : List RecordLayerTurn) (data : Option Buf) (lvl : EncryptionLevel)
    (m a : Bool)
    (hscript : s.phase = Phase.established →
      ∀ turn ∈ script, ∀ cb ∈ turn.callbacks, cb.isComputeOneRtt = false) :
    s.phase.idx ≤ (ClientHandshake.doHandshake script data lvl s).phase.idx
    ∧ s.phase.idx ≤ (ClientHandshake.onRecvOneRttProtectedData s).phase.idx
    ∧ (s.phase ≠ Phase.established →
        s.phase.idx ≤ (ClientHandshake.computeOneRttCipher m a s).phase.idx) := by
  refine ⟨?_, ?_, ?_⟩
  · cases data with
    | none => exact le_refl _
    | some d => exact doHandshake_phase_mono script d lvl s hscript
  · unfold ClientHandshake.onRecvOneRttProtectedData
    split
    · exact phase_idx_le_of_ne_established s.phase (by assumption) |>.trans (by simp [Phase.idx])
    · exact le_refl _
  · intro hest
    unfold ClientHandshake.computeOneRttCipher
    split
    · split
      · exact phase_idx_le_of_ne_established s.phase hest |>.trans (by simp [Phase.idx])
      · exact le_refl _
    · exact phase_idx_le_of_ne_established s.phase hest |>.trans (by simp [Phase.idx])

/-- Witness for C3 (amended): monotonicity on a concrete run where the
record layer consumes one Initial byte and signals for more data. -/
theorem handshake_phase_monotone_witness :
    (ClientHandshake.initState).phase.idx ≤
      (ClientHandshake.doHandshake
        [⟨EncryptionLevel.initial, 1, [HandshakeCallback.signalWaitForData]⟩]
        (some [0]) EncryptionLevel.initial ClientHandshake.initState).phase.idx
    ∧ (ClientHandshake.initState).phase.idx ≤
        (ClientHandshake.onRecvOneRttProtectedData ClientHandshake.initState).phase.idx
    ∧ ((ClientHandshake.initState).phase ≠ Phase.established →
        (ClientHandshake.initState).phase.idx ≤
          (ClientHandshake.computeOneRttCipher true true
            ClientHandshake.initState).phase.idx) :=
  handshake_phase_monotone ClientHandshake.initState
    [⟨EncryptionLevel.initial, 1, [HandshakeCallback.signalWaitForData]⟩]
    (some [0]) EncryptionLevel.initial true true (by decide)

/-- C4: if 0-RTT was attempted and `computeOneRttCipher` learns it was
rejected with the early parameters no longer matching, an
`EARLY_DATA_REJECTED` error is recorded and the phase does not advance
(the assignment to `OneRttKeysDerived` is skipped by the early
return). -/
theorem computeOneRttCipher_changed_params (s : ClientHandshakeState)
    (h : s.earlyDataAttempted = true) :
    (ClientHandshake.computeOneRttCipher false false s).error =
      some HandshakeError.earlyDataRejected
    ∧ (ClientHandshake.computeOneRttCipher false false s).phase = s.phase
    ∧ (ClientHandshake.computeOneRttCipher false false s).zeroRttRejected =
        s.zeroRttRejected := by
  simp [ClientHandshake.computeOneRttCipher, h]

/-- Witness for C4 on the fresh state with 0-RTT attempted. -/
theorem computeOneRttCipher_changed_params_witness :
    (ClientHandshake.computeOneRttCipher false false
      { ClientHandshake.initState with earlyDataAttempted := true }).error =
        some HandshakeError.earlyDataRejected
    ∧ (ClientHandshake.computeOneRttCipher false false
        { ClientHandshake.initState with earlyDataAttempted := true }).phase =
        Phase.initial :=
  ⟨(computeOneRttCipher_changed_params _ rfl).1,
   (computeOneRttCipher_changed_params _ rfl).2.1⟩

/-- C5: if 0-RTT was attempted and `computeOneRttCipher` learns it was
rejected with the early parameters still matching, `zeroRttRejected_`
is set to true, no error is recorded, and the phase advances to
`OneRttKeysDerived`. -/
theorem computeOneRttCipher_params_match (s : ClientHandshakeState)
    (h : s.earlyDataAttempted = true) :
    (ClientHandshake.computeOneRttCipher true false s).zeroRttRejected = some true
    ∧ (ClientHandshake.computeOneRttCipher true false s).error = s.error
    ∧ (ClientHandshake.computeOneRttCipher true false s).phase =
        Phase.oneRttKeysDerived := by
  simp [ClientHandshake.computeOneRttCipher, h]

/-- Witness for C5 on the fresh state with 0-RTT attempted: no error
appears and the phase reaches `OneRttKeysDerived`. -/
theorem computeOneRttCipher_params_match_witness :
    (ClientHandshake.computeOneRttCipher true false
      { ClientHandshake.initState with earlyDataAttempted := true }).zeroRttRejected =
        some true
    ∧ (ClientHandshake.computeOneRttCipher true false
        { ClientHandshake.initState with earlyDataAttempted := true }).error = none
    ∧ (ClientHandshake.computeOneRttCipher true false
        { ClientHandshake.initState with earlyDataAttempted := true }).phase =
        Phase.oneRttKeysDerived :=
  ⟨(computeOneRttCipher_params_match _ rfl).1,
   (computeOneRttCipher_params_match _ rfl).2.1,
   (computeOneRttCipher_params_match _ rfl).2.2⟩

/-- C8: `writeDataToStream` drops CRYPTO bytes at AppData level (all
crypto streams are untouched, the state is unchanged) and appends the
bytes to the crypto stream of every other level. -/
theorem writeDataToStream_spec (lvl : EncryptionLevel) (data : Buf)
    (s : ClientHandshakeState) :
    (lvl = EncryptionLevel.appData → ClientHandshake.writeDataToStream lvl data s = s)
    ∧ (lvl = EncryptionLevel.initial →
        (ClientHandshake.writeDataToStream lvl data s).cryptoState =
          { s.cryptoState with
              initialStream := s.cryptoState.initialStream ++ data })
    ∧ (lvl = EncryptionLevel.handshake →
        (ClientHandshake.writeDataToStream lvl data s).cryptoState =
          { s.cryptoState with
              handshakeStream := s.cryptoState.handshakeStream ++ data })
    ∧ (lvl = EncryptionLevel.earlyData →
        (ClientHandshake.writeDataToStream lvl data s).cryptoState =
          { s.cryptoState with
              earlyDataStream := s.cryptoState.earlyDataStream ++ data }) := by
  cases lvl <;>
    simp [ClientHandshake.writeDataToStream, writeDataToCryptoStream]

/-- Witness for C8: AppData bytes vanish, Initial bytes land on the
Initial crypto stream. -/
theorem writeDataToStream_spec_witness :
    ClientHandshake.writeDataToStream EncryptionLevel.appData [1, 2]
        ClientHandshake.initState = ClientHandshake.initState
    ∧ (ClientHandshake.writeDataToStream EncryptionLevel.initial [1, 2]
        ClientHandshake.initState).cryptoState = ⟨[1, 2], [], []⟩ :=
  ⟨(writeDataToStream_spec EncryptionLevel.appData [1, 2] ClientHandshake.initState).1 rfl,
   (writeDataToStream_spec EncryptionLevel.initial [1, 2] ClientHandshake.initState).2.1 rfl⟩

/-- C9: every cipher getter re-throws the stored error when one has
been recorded; with no error stored, it moves the cipher out of its
slot, so an immediate second call on the resulting state yields an
empty cipher. -/
theorem cipher_getters_spec (s : ClientHandshakeState) :
    (∀ e, s.error = some e →
      ClientHandshake.getOneRttWriteCipher s = Except.error e
      ∧ ClientHandshake.getOneRttReadCipher s = Except.error e
      ∧ ClientHandshake.getZeroRttWriteCipher s = Except.error e
      ∧ ClientHandshake.getHandshakeReadCipher s = Except.error e
      ∧ ClientHandshake.getHandshakeWriteCipher s = Except.error e
      ∧ ClientHandshake.getOneRttReadHeaderCipher s = Except.error e
      ∧ ClientHandshake.getOneRttWriteHeaderCipher s = Except.error e
      ∧ ClientHandshake.getHandshakeReadHeaderCipher s = Except.error e
      ∧ ClientHandshake.getHandshakeWriteHeaderCipher s = Except.error e
      ∧ ClientHandshake.getZeroRttWriteHeaderCipher s = Except.error e)
    ∧ (s.error = none →
      (ClientHandshake.getOneRttWriteCipher s =
          Except.ok (s.oneRttWriteCipher, { s with oneRttWriteCipher := none })
        ∧ ClientHandshake.getOneRttWriteCipher { s with oneRttWriteCipher := none } =
            Except.ok (none, { s with oneRttWriteCipher := none }))
      ∧ (ClientHandshake.getOneRttReadCipher s =
          Except.ok (s.oneRttReadCipher, { s with oneRttReadCipher := none })
        ∧ ClientHandshake.getOneRttReadCipher { s with oneRttReadCipher := none } =
            Except.ok (none, { s with oneRttReadCipher := none }))
      ∧ (ClientHandshake.getZeroRttWriteCipher s =
          Except.ok (s.zeroRttWriteCipher, { s with zeroRttWriteCipher := none })
        ∧ ClientHandshake.getZeroRttWriteCipher { s with zeroRttWriteCipher := none } =
            Except.ok (none, { s with zeroRttWriteCipher := none }))
      ∧ (ClientHandshake.getHandshakeReadCipher s =
          Except.ok (s.handshakeReadCipher, { s with handshakeReadCipher := none })
        ∧ ClientHandshake.getHandshakeReadCipher { s with handshakeReadCipher := none } =
            Except.ok (none, { s with handshakeReadCipher := none }))
      ∧ (ClientHandshake.getHandshakeWriteCipher s =
          Except.ok (s.handshakeWriteCipher, { s with handshakeWriteCipher := none })
        ∧ ClientHandshake.getHandshakeWriteCipher { s with handshakeWriteCipher := none } =
            Except.ok (none, { s with handshakeWriteCipher := none }))
      ∧ (ClientHandshake.getOneRttReadHeaderCipher s =
          Except.ok (s.oneRttReadHeaderCipher, { s with oneRttReadHeaderCipher := none })
        ∧ ClientHandshake.getOneRttReadHeaderCipher
              { s with oneRttReadHeaderCipher := none } =
            Except.ok (none, { s with oneRttReadHeaderCipher := none }))
      ∧ (ClientHandshake.getOneRttWriteHeaderCipher s =
          Except.ok (s.oneRttWriteHeaderCipher, { s with oneRttWriteHeaderCipher := none })
        ∧ ClientHandshake.getOneRttWriteHeaderCipher
              { s with oneRttWriteHeaderCipher := none } =
            Except.ok (none, { s with oneRttWriteHeaderCipher := none }))
      ∧ (ClientHandshake.getHandshakeReadHeaderCipher s =
          Except.ok (s.handshakeReadHeaderCipher,
            { s with handshakeReadHeaderCipher := none })
        ∧ ClientHandshake.getHandshakeReadHeaderCipher
              { s with handshakeReadHeaderCipher := none } =
            Except.ok (none, { s with handshakeReadHeaderCipher := none }))
      ∧ (ClientHandshake.getHandshakeWriteHeaderCipher s =
          Except.ok (s.handshakeWriteHeaderCipher,
            { s with handshakeWriteHeaderCipher := none })
        ∧ ClientHandshake.getHandshakeWriteHeaderCipher
              { s with handshakeWriteHeaderCipher := none } =
            Except.ok (none, { s with handshakeWriteHeaderCipher := none }))
      ∧ (ClientHandshake.getZeroRttWriteHeaderCipher s =
          Except.ok (s.zeroRttWriteHeaderCipher,
            { s with zeroRttWriteHeaderCipher := none })
        ∧ ClientHandshake.getZeroRttWriteHeaderCipher
              { s with zeroRttWriteHeaderCipher := none } =
            Except.ok (none, { s with zeroRttWriteHeaderCipher := none }))) := by
  constructor
  · intro e he
    refine ⟨?_, ?_, ?_, ?_, ?_, ?_, ?_, ?_, ?_, ?_⟩ <;>
      simp [ClientHandshake.getOneRttWriteCipher, ClientHandshake.getOneRttReadCipher,
        ClientHandshake.getZeroRttWriteCipher, ClientHandshake.getHandshakeReadCipher,
        ClientHandshake.getHandshakeWriteCipher, ClientHandshake.getOneRttReadHeaderCipher,
        ClientHandshake.getOneRttWriteHeaderCipher,
        ClientHandshake.getHandshakeReadHeaderCipher,
        ClientHandshake.getHandshakeWriteHeaderCipher,
        ClientHandshake.getZeroRttWriteHeaderCipher, he]
  · intro he
    refine ⟨⟨?_, ?_⟩, ⟨?_, ?_⟩, ⟨?_, ?_⟩, ⟨?_, ?_⟩, ⟨?_, ?_⟩, ⟨?_, ?_⟩, ⟨?_, ?_⟩,
      ⟨?_, ?_⟩, ⟨?_, ?_⟩, ⟨?_, ?_⟩⟩ <;>
      simp [ClientHandshake.getOneRttWriteCipher, ClientHandshake.getOneRttReadCipher,
        ClientHandshake.getZeroRttWriteCipher, ClientHandshake.getHandshakeReadCipher,
        ClientHandshake.getHandshakeWriteCipher, ClientHandshake.getOneRttReadHeaderCipher,
        ClientHandshake.getOneRttWriteHeaderCipher,
        ClientHandshake.getHandshakeReadHeaderCipher,
        ClientHandshake.getHandshakeWriteHeaderCipher,
        ClientHandshake.getZeroRttWriteHeaderCipher, he]

/-- Witness for C9: the getter re-throws the stored error on
`hsErrSample`; on `hsOkSample` it yields the installed cipher, and the
second call on the moved-out state yields none. -/
theorem cipher_getters_spec_witness :
    ClientHandshake.getOneRttWriteCipher hsErrSample =
      Except.error (HandshakeError.recordLayerFailure 3)
    ∧ ClientHandshake.getOneRttWriteCipher hsOkSample =
        Except.ok (some ⟨7⟩, { hsOkSample with oneRttWriteCipher := none })
    ∧ ClientHandshake.getOneRttWriteCipher { hsOkSample with oneRttWriteCipher := none } =
        Except.ok (none, { hsOkSample with oneRttWriteCipher := none }) :=
  ⟨((cipher_getters_spec hsErrSample).1 _ rfl).1,
   ((cipher_getters_spec hsOkSample).2 rfl).1.1,
   ((cipher_getters_spec hsOkSample).2 rfl).1.2⟩

/-- C10: `doHandshake` with a null data buffer returns immediately: the
whole state (phase, the three read buffers, `waitForData_`, any stored
error) is unchanged, and in particular the Initial-to-Handshake bump
does not happen. -/
theorem doHandshake_null_buffer (script : List RecordLayerTurn)
    (lvl : EncryptionLevel) (s : ClientHandshakeState) :
    ClientHandshake.doHandshake script none lvl s = s := rfl

end Mvfst
